import Mathlib

set_option maxRecDepth 40000

/-!
Verification of the GitHub stats tool server (src/githubRepoStats.py).

The development shallowly embeds the Python module: JSON values are an
inductive type with Python truthiness and subscript/membership semantics,
the network is an explicit outcome value, raised Python exceptions are the
error side of an `Except`, and the two tool handlers are functions from
their arguments and the network outcome to `Except PyError String`.
-/

namespace GithubRepoStats

/-- Parsed JSON values, as Python represents them after `response.json()`:
`None`, `bool`, `int`, `str`, `list`, `dict` (a dict is a key-ordered
association list; the payloads modelled here have no duplicate keys). -/
inductive Json where
  | null : Json
  | bool : Bool → Json
  | num : Int → Json
  | str : String → Json
  | arr : List Json → Json
  | obj : List (String × Json) → Json

/-- Python exceptions that the module's code can raise. `AttributeError`
(calling `.get` on a non-dict) is collapsed into `typeError`; a dict
subscripted with an integer key raises `keyError` carrying the printed key. -/
inductive PyError where
  | typeError : PyError
  | keyError : String → PyError
  | indexError : PyError
deriving Repr, DecidableEq

/-- Python truthiness (`bool(v)`) of a JSON value. -/
def Json.truthy : Json → Bool
  | .null => false
  | .bool b => b
  | .num n => n != 0
  | .str s => !(s == "")
  | .arr xs => !xs.isEmpty
  | .obj kvs => !kvs.isEmpty

/-- Dict lookup on the association list (no duplicate keys assumed). -/
def lookupKey : List (String × Json) → String → Option Json
  | [], _ => none
  | (k2, v) :: rest, k => if k2 = k then some v else lookupKey rest k

mutual

/-- Python `repr` of a JSON value (used by `str()` for non-string values). -/
def pyRepr : Json → String
  | .null => "None"
  | .bool true => "True"
  | .bool false => "False"
  | .num n => toString n
  | .str s => "'" ++ s ++ "'"
  | .arr xs => "[" ++ pyReprList xs ++ "]"
  | .obj kvs => "\x7b" ++ pyReprObj kvs ++ "\x7d"

/-- Comma-separated reprs of list elements. -/
def pyReprList : List Json → String
  | [] => ""
  | [x] => pyRepr x
  | x :: xs => pyRepr x ++ ", " ++ pyReprList xs

/-- Comma-separated reprs of dict entries. -/
def pyReprObj : List (String × Json) → String
  | [] => ""
  | [(k, v)] => "'" ++ k ++ "': " ++ pyRepr v
  | (k, v) :: kvs => "'" ++ k ++ "': " ++ pyRepr v ++ ", " ++ pyReprObj kvs

end

/-- Python `str(v)`, as used by f-string interpolation: a string is itself,
anything else is its repr (with `str(None) = "None"`). -/
def pyStr : Json → String
  | .str s => s
  | v => pyRepr v

/-- Contiguous-sublist test on character lists (Python substring search). -/
def listInfix (pat : List Char) : List Char → Bool
  | [] => pat.isEmpty
  | c :: rest => pat.isPrefixOf (c :: rest) || listInfix pat rest

/-- Python `k in v` for a string `k`: key membership for a dict, element
membership for a list, substring test for a string, `TypeError` otherwise. -/
def pyContains (v : Json) (k : String) : Except PyError Bool :=
  match v with
  | .obj kvs => .ok (kvs.any (fun kv => kv.1 == k))
  | .arr xs => .ok (xs.any (fun j => match j with | .str s => s == k | _ => false))
  | .str s => .ok (listInfix k.toList s.toList)
  | _ => .error .typeError

/-- Python `v[k]` for a string key: dict lookup (`KeyError` when absent),
`TypeError` on any non-dict. -/
def pyGetItem (v : Json) (k : String) : Except PyError Json :=
  match v with
  | .obj kvs =>
    match lookupKey kvs k with
    | some x => .ok x
    | none => .error (.keyError k)
  | _ => .error .typeError

/-- Python `v[i]` for an integer index: list/str indexing (`IndexError` out of
range), `KeyError` for a dict with only string keys, `TypeError` otherwise. -/
def pyGetIdx (v : Json) (i : Nat) : Except PyError Json :=
  match v with
  | .arr xs =>
    match xs.get? i with
    | some x => .ok x
    | none => .error .indexError
  | .str s =>
    match s.toList.get? i with
    | some c => .ok (.str (String.push "" c))
    | none => .error .indexError
  | .obj _ => .error (.keyError (toString i))
  | _ => .error .typeError

/-- Python `v.get(k, default)`: dict lookup with default (the default is used
only when the key is absent, not when its value is null). -/
def pyGet (v : Json) (k : String) (default : Json) : Except PyError Json :=
  match v with
  | .obj kvs => .ok ((lookupKey kvs k).getD default)
  | _ => .error .typeError

/-- Python `len(v)`. -/
def pyLen (v : Json) : Except PyError Nat :=
  match v with
  | .arr xs => .ok xs.length
  | .str s => .ok s.length
  | .obj kvs => .ok kvs.length
  | _ => .error .typeError

/-- Python iteration `for x in v`: list elements, string characters, dict keys. -/
def pyIter (v : Json) : Except PyError (List Json) :=
  match v with
  | .arr xs => .ok xs
  | .str s => .ok (s.toList.map (fun c => .str (String.push "" c)))
  | .obj kvs => .ok (kvs.map (fun kv => .str kv.1))
  | _ => .error .typeError

/-- Python `a + b` as the module uses it (string or integer addition). -/
def pyAdd (a b : Json) : Except PyError Json :=
  match a, b with
  | .str x, .str y => .ok (.str (x ++ y))
  | .num x, .num y => .ok (.num (x + y))
  | _, _ => .error .typeError

/-- Python `sep.join(xs)`: `TypeError` when any element is not a string. -/
def pyJoin (sep : String) : List Json → Except PyError String
  | [] => .ok ""
  | [.str s] => .ok s
  | .str s :: x :: xs => do
    let r ← pyJoin sep (x :: xs)
    .ok (s ++ sep ++ r)
  | _ => .error .typeError

/-- Substring test used in theorem statements. -/
def strContains (s pat : String) : Bool := listInfix pat.toList s.toList

/-- Outcome of the single `httpx` POST: a response with its HTTP status code
and parsed JSON body (`none` when `response.json()` raises), a timeout
(`httpx.TimeoutException`), or any other transport exception. -/
inductive NetOutcome where
  | resp : Nat → Option Json → NetOutcome
  | timeout : NetOutcome
  | netError : NetOutcome

/-- `httpx` success statuses: `raise_for_status` raises `HTTPStatusError`
for every status outside 200-299. -/
def is2xx (s : Nat) : Bool := decide (200 ≤ s ∧ s < 300)

def GITHUB_GRAPHQL_URL : String := "https://api.github.com/graphql"

/-- `make_github_request(query, variables)` (src lines 14-45): posts the
query, then in order — timeout is caught and yields `None`; a non-2xx status
makes `raise_for_status` raise, caught yielding `None`; a `TypeError` from
`"errors" in result` on a non-container body is caught by the blanket
`except Exception`, yielding `None`; a body containing a top-level
`"errors"` key yields `None`; otherwise the parsed body is returned.
The query text and variables do not influence the modelled outcome. -/
def make_github_request (query : String) (vars : List (String × Json))
    (net : NetOutcome) : Option Json :=
  match net with
  | .timeout => none
  | .netError => none
  | .resp status body =>
    if is2xx status then
      match body with
      | none => none
      | some result =>
        match pyContains result "errors" with
        | .error _ => none
        | .ok true => none
        | .ok false => some result
    else none

/-- Number of positional parameters `make_github_request` declares. -/
def make_github_request_params : Nat := 2

/-- Python call dispatch: a call whose positional argument count differs from
the callee's parameter count raises `TypeError` before the body runs. -/
def pyCallArity (declared supplied : Nat) (result : α) : Except PyError α :=
  if supplied = declared then .ok result else .error .typeError

/-- The GraphQL query text of `get_repository_info` (src lines 55-85). -/
def repository_query : String :=
"
    query($owner: String!, $name: String!) \x7b
      repository(owner: $owner, name: $name) \x7b
        name
        description
        url
        stargazerCount
        forkCount
        issues(states: OPEN) \x7b
          totalCount
        \x7d
        pullRequests(states: OPEN) \x7b
          totalCount
        \x7d
        primaryLanguage \x7b
          name
        \x7d
        languages(first: 10) \x7b
          nodes \x7b
            name
          \x7d
        \x7d
        releases(last: 1) \x7b
          nodes \x7b
            tagName
            publishedAt
          \x7d
        \x7d
      \x7d
    \x7d
    "

/-- The GraphQL query text of `get_user_info` (src lines 125-149). -/
def user_query : String :=
"
    query($username: String!) \x7b
      user(login: $username) \x7b
        name
        login
        bio
        company
        location
        email
        websiteUrl
        repositories \x7b
          totalCount
        \x7d
        followers \x7b
          totalCount
        \x7d
        following \x7b
          totalCount
        \x7d
        contributionsCollection \x7b
          totalCommitContributions
        \x7d
      \x7d
    \x7d
    "

/-- Lines 93-116 of `get_repository_info`: everything after the request
returns, from the `not data or "data" not in data` test to the f-string.
Sub-expressions are evaluated in the source's order so the first raised
exception matches Python's. -/
def format_repository_response (owner name : String) (data : Option Json) :
    Except PyError String :=
  match data with
  | none => .ok "Unable to fetch repository information."
  | some d =>
    if !d.truthy then .ok "Unable to fetch repository information."
    else do
      let hasData ← pyContains d "data"
      if !hasData then .ok "Unable to fetch repository information."
      else do
        let dv ← pyGetItem d "data"
        let repo ← pyGetItem dv "repository"
        if !repo.truthy then
          .ok ("Repository " ++ owner ++ "/" ++ name ++ " not found.")
        else do
          let langsField ← pyGetItem repo "languages"
          let langNodes ← pyGetItem langsField "nodes"
          let langElems ← pyIter langNodes
          let languages ← langElems.mapM (fun lang => pyGetItem lang "name")
          let relField ← pyGetItem repo "releases"
          let relNodes ← pyGetItem relField "nodes"
          let latest_release ←
            if relNodes.truthy then do
              let n ← pyLen relNodes
              if 0 < n then do
                let first ← pyGetIdx relNodes 0
                pure (some first)
              else pure (none : Option Json)
            else pure (none : Option Json)
          let nameV ← pyGetItem repo "name"
          let descV ← pyGet repo "description" (.str "No description")
          let urlV ← pyGetItem repo "url"
          let starsV ← pyGetItem repo "stargazerCount"
          let forksV ← pyGetItem repo "forkCount"
          let issuesField ← pyGetItem repo "issues"
          let issuesV ← pyGetItem issuesField "totalCount"
          let prsField ← pyGetItem repo "pullRequests"
          let prsV ← pyGetItem prsField "totalCount"
          let primLang ← pyGetItem repo "primaryLanguage"
          let primLangText ←
            if primLang.truthy then do
              let nm ← pyGetItem primLang "name"
              pure (pyStr nm)
            else pure "None"
          let langsText ← pyJoin ", " languages
          let latestText ←
            match latest_release with
            | some lr =>
              if lr.truthy then do
                let tagV ← pyGetItem lr "tagName"
                let s1 ← pyAdd tagV (.str " (")
                let pubV ← pyGetItem lr "publishedAt"
                let s2 ← pyAdd s1 pubV
                let s3 ← pyAdd s2 (.str ")")
                pure (pyStr s3)
              else pure "None"
            | none => pure "None"
          pure ("\n" ++ "Repository: " ++ pyStr nameV ++ "\n" ++
            "Description: " ++ pyStr descV ++ "\n" ++
            "URL: " ++ pyStr urlV ++ "\n" ++
            "Stars: " ++ pyStr starsV ++ "\n" ++
            "Forks: " ++ pyStr forksV ++ "\n" ++
            "Open Issues: " ++ pyStr issuesV ++ "\n" ++
            "Open Pull Requests: " ++ pyStr prsV ++ "\n" ++
            "Primary Language: " ++ primLangText ++ "\n" ++
            "Languages: " ++ langsText ++ "\n" ++
            "Latest Release: " ++ latestText ++ "\n")

/-- Lines 158-177 of `get_user_info`: everything after the request returns.
In the source this code is unreachable (the call above it raises), but it is
embedded faithfully so its formatting behaviour can be stated. -/
def format_user_response (username : String) (data : Option Json) :
    Except PyError String :=
  match data with
  | none => .ok "Unable to fetch user information."
  | some d =>
    if !d.truthy then .ok "Unable to fetch user information."
    else do
      let hasData ← pyContains d "data"
      if !hasData then .ok "Unable to fetch user information."
      else do
        let dv ← pyGetItem d "data"
        let user ← pyGetItem dv "user"
        if !user.truthy then
          .ok ("User " ++ username ++ " not found.")
        else do
          let nameV ← pyGet user "name" (.str "Not provided")
          let loginV ← pyGetItem user "login"
          let bioV ← pyGet user "bio" (.str "No bio")
          let companyV ← pyGet user "company" (.str "Not provided")
          let locationV ← pyGet user "location" (.str "Not provided")
          let emailV ← pyGet user "email" (.str "Not provided")
          let websiteV ← pyGet user "websiteUrl" (.str "Not provided")
          let reposField ← pyGetItem user "repositories"
          let reposV ← pyGetItem reposField "totalCount"
          let follField ← pyGetItem user "followers"
          let follV ← pyGetItem follField "totalCount"
          let follgField ← pyGetItem user "following"
          let follgV ← pyGetItem follgField "totalCount"
          let contribField ← pyGetItem user "contributionsCollection"
          let contribV ← pyGetItem contribField "totalCommitContributions"
          pure ("\n" ++ "Name: " ++ pyStr nameV ++ "\n" ++
            "Username: " ++ pyStr loginV ++ "\n" ++
            "Bio: " ++ pyStr bioV ++ "\n" ++
            "Company: " ++ pyStr companyV ++ "\n" ++
            "Location: " ++ pyStr locationV ++ "\n" ++
            "Email: " ++ pyStr emailV ++ "\n" ++
            "Website: " ++ pyStr websiteV ++ "\n" ++
            "Public Repositories: " ++ pyStr reposV ++ "\n" ++
            "Followers: " ++ pyStr follV ++ "\n" ++
            "Following: " ++ pyStr follgV ++ "\n" ++
            "Total Contributions: " ++ pyStr contribV ++ "\n")

/-- `get_repository_info(owner, name)` (src lines 47-116): one request with
two positional arguments — matching the callee's two parameters — then the
formatting code. -/
def get_repository_info (owner name : String) (net : NetOutcome) :
    Except PyError String := do
  let data ← pyCallArity make_github_request_params 2
    (make_github_request ((String.replace repository_query "\n" " ").trim)
      [("owner", Json.str owner), ("name", Json.str name)] net)
  format_repository_response owner name data

/-- `get_user_info(username)` (src lines 118-177): the source passes THREE
positional arguments (query, variables, GITHUB_TOKEN) to the two-parameter
`make_github_request` (src lines 152-156), so the call raises `TypeError`
before the request is made; the exception propagates out of the handler. -/
def get_user_info (username : String) (net : NetOutcome) :
    Except PyError String := do
  let data ← pyCallArity make_github_request_params 3
    (make_github_request ((String.replace user_query "\n" " ").trim)
      [("username", Json.str username)] net)
  format_user_response username data

/-! Sample payloads used by the theorems: a canonical successful repository
response, parametric in the fields the individual claims vary. -/

/-- A repository object as the GraphQL API would return it: `desc` controls
the `description` entry (`none` = key absent, `some v` = key present with
value `v`), `pl` is the `primaryLanguage` value, `rel` the `releases.nodes`
value. -/
def sample_repo (desc : Option Json) (pl rel : Json) : Json :=
  .obj ([("name", Json.str "Hello-World")] ++
    (match desc with
     | some dv => [("description", dv)]
     | none => []) ++
    [("url", Json.str "https://github.com/octocat/Hello-World"),
     ("stargazerCount", Json.num 42),
     ("forkCount", Json.num 9),
     ("issues", Json.obj [("totalCount", Json.num 3)]),
     ("pullRequests", Json.obj [("totalCount", Json.num 2)]),
     ("primaryLanguage", pl),
     ("languages", Json.obj [("nodes", Json.arr [Json.obj [("name", Json.str "C")]])]),
     ("releases", Json.obj [("nodes", rel)])])

/-- A 2xx response whose body wraps `sample_repo` under `data.repository`. -/
def sample_net (desc : Option Json) (pl rel : Json) : NetOutcome :=
  .resp 200 (some (.obj [("data", .obj [("repository", sample_repo desc pl rel)])]))

/-- Expected rendering of a repository summary, one argument per substituted
field, mirroring the f-string of src lines 105-116. -/
def rendered_repo (nameText descText urlText starsText forksText issuesText
    prsText plText langsText relText : String) : String :=
  "\n" ++ "Repository: " ++ nameText ++ "\n" ++
    "Description: " ++ descText ++ "\n" ++
    "URL: " ++ urlText ++ "\n" ++
    "Stars: " ++ starsText ++ "\n" ++
    "Forks: " ++ forksText ++ "\n" ++
    "Open Issues: " ++ issuesText ++ "\n" ++
    "Open Pull Requests: " ++ prsText ++ "\n" ++
    "Primary Language: " ++ plText ++ "\n" ++
    "Languages: " ++ langsText ++ "\n" ++
    "Latest Release: " ++ relText ++ "\n"

/-- Expected summary for `sample_repo` with description text `descText`,
primary-language text `plText` and latest-release text `relText`. -/
def sample_out (descText plText relText : String) : String :=
  rendered_repo "Hello-World" descText "https://github.com/octocat/Hello-World"
    "42" "9" "3" "2" plText "C" relText

/-! Helper lemmas shared by the claim proofs. -/

@[simp]
theorem except_bind_ok (a : α) (f : α → Except ε β) : (Except.ok a >>= f) = f a := rfl

@[simp]
theorem except_bind_error (e : ε) (f : α → Except ε β) :
    ((Except.error e : Except ε α) >>= f) = Except.error e := rfl

/-- `make_github_request` yields no payload on any non-2xx status. -/
theorem make_github_request_non2xx (q : String) (vs : List (String × Json))
    (s : Nat) (body : Option Json) (h : is2xx s = false) :
    make_github_request q vs (.resp s body) = none := by
  simp [make_github_request, h]

/-- Claim C1: every tool call should terminate by returning a string, never by
raising. The code does not satisfy this for `get_user_info`: the handler calls
the two-parameter `make_github_request` with three positional arguments
(src lines 152-156), so every invocation, whatever the username and whatever
the network would have answered, raises `TypeError` across the tool boundary. -/
theorem C1_get_user_info_always_raises (username : String) (net : NetOutcome) :
    get_user_info username net = .error .typeError := rfl

/-- The full summary produced for a repository whose `description` field is
present but null: the line reads `Description: None`, not the placeholder. -/
def c2_out : String :=
  "\nRepository: Hello-World\nDescription: None\nURL: https://github.com/octocat/Hello-World\nStars: 42\nForks: 9\nOpen Issues: 3\nOpen Pull Requests: 2\nPrimary Language: Python\nLanguages: C\nLatest Release: None\n"

/-- Claim C2, counterexample: a successful repository payload whose
`description` key is present with a null value renders the null marker
`None` in the Description line, not the placeholder `No description` —
`dict.get` only substitutes the default for an absent key. -/
theorem C2_null_description_renders_null_marker :
    get_repository_info "octocat" "Hello-World"
        (sample_net (some Json.null) (Json.obj [("name", Json.str "Python")])
          (Json.arr [])) = .ok c2_out
    ∧ strContains c2_out "Description: None" = true
    ∧ strContains c2_out "No description" = false :=
  ⟨rfl, by decide, by decide⟩

/-- Claim C2, amended: the placeholder text renders exactly when the optional
key is absent from the payload; a key present with value `v` renders `str(v)`
— so a null value renders `None`, never the placeholder. -/
theorem C2_placeholder_only_when_key_absent (d : Json) :
    get_repository_info "octocat" "Hello-World"
        (sample_net (some d) (Json.obj [("name", Json.str "Python")])
          (Json.arr [])) =
      .ok (sample_out (pyStr d) "Python" "None")
    ∧ get_repository_info "octocat" "Hello-World"
        (sample_net none (Json.obj [("name", Json.str "Python")])
          (Json.arr [])) =
      .ok (sample_out "No description" "Python" "None") :=
  ⟨rfl, rfl⟩

/-- Claim C3, counterexample: a 2xx response whose body carries an EMPTY
top-level `errors` array is rejected — the code tests `"errors" in result`,
key presence rather than non-emptiness, so the parsed body is discarded
even though the claim calls this case a success. -/
theorem C3_empty_errors_array_causes_failure :
    make_github_request "query" []
      (NetOutcome.resp 200 (some (Json.obj
        [("errors", Json.arr []),
         ("data", Json.obj [("repository", Json.null)])]))) = none := rfl

/-- Claim C3, amended: for an object body, `make_github_request` returns the
parsed body exactly when the HTTP status is 2xx and the body has no top-level
`errors` key at all; any present `errors` key — even an empty array — and any
timeout or transport error yield the failure indicator. -/
theorem C3_success_iff_no_errors_key (q : String) (vs : List (String × Json))
    (s : Nat) (kvs : List (String × Json)) :
    make_github_request q vs (.resp s (some (.obj kvs))) =
      (if is2xx s && !(kvs.any (fun kv => kv.1 == "errors"))
       then some (.obj kvs) else none)
    ∧ make_github_request q vs .timeout = none
    ∧ make_github_request q vs .netError = none := by
  refine ⟨?_, rfl, rfl⟩
  by_cases h : is2xx s
  · cases hk : kvs.any (fun kv => kv.1 == "errors") <;>
      simp [make_github_request, pyContains, h, hk]
  · simp [make_github_request, pyContains, h]

/-- Claim C4: on timeout, on any other transport exception, and on every
non-2xx status whatever its value, `get_repository_info` returns exactly
"Unable to fetch repository information."; but the claimed user-side
equivalent is false — `get_user_info` raises `TypeError` (three positional
arguments to the two-parameter request function) instead of returning
"Unable to fetch user information.", shown here for the timeout case. -/
theorem C4_generic_message_on_transport_failure :
    (∀ owner name, get_repository_info owner name .timeout =
        .ok "Unable to fetch repository information.")
    ∧ (∀ owner name, get_repository_info owner name .netError =
        .ok "Unable to fetch repository information.")
    ∧ (∀ owner name s body, is2xx s = false →
        get_repository_info owner name (.resp s body) =
          .ok "Unable to fetch repository information.")
    ∧ get_user_info "octocat" .timeout = .error .typeError := by
  refine ⟨fun o n => rfl, fun o n => rfl, ?_, rfl⟩
  intro o n s body h
  unfold get_repository_info
  rw [make_github_request_non2xx _ _ _ _ h]
  rfl

/-- Witness for C4 at status 404. -/
theorem C4_generic_message_on_transport_failure_witness :
    get_repository_info "octocat" "Hello-World" (.resp 404 none) =
      .ok "Unable to fetch repository information." :=
  C4_generic_message_on_transport_failure.2.2.1 "octocat" "Hello-World" 404 none
    (by decide)

/-- Claim C5: with `data.repository` null, `get_repository_info` returns the
not-found message carrying `owner/name` verbatim, for every owner and name;
but the claimed user-side equivalent is false — with `data.user` null,
`get_user_info` raises `TypeError` at its three-argument request call instead
of returning "User octocat not found.". -/
theorem C5_not_found_message_names_identifier :
    (∀ owner name, get_repository_info owner name
        (.resp 200 (some (.obj [("data", .obj [("repository", Json.null)])]))) =
      .ok ("Repository " ++ owner ++ "/" ++ name ++ " not found."))
    ∧ get_user_info "octocat"
        (.resp 200 (some (.obj [("data", .obj [("user", Json.null)])]))) =
      .error .typeError :=
  ⟨fun owner name => rfl, rfl⟩

/-- Claim C6: the Latest Release line renders exactly `None` for an empty
release list, and exactly the tag name followed by the publish timestamp in
parentheses for a single release, e.g.
`Latest Release: v1.0 (2024-01-01T00:00:00Z)`. -/
theorem C6_latest_release_line (tag ts : String) :
    get_repository_info "octocat" "Hello-World"
        (sample_net none (Json.obj [("name", Json.str "Python")])
          (Json.arr [Json.obj [("tagName", Json.str tag),
            ("publishedAt", Json.str ts)]])) =
      .ok (sample_out "No description" "Python" (tag ++ " (" ++ ts ++ ")"))
    ∧ get_repository_info "octocat" "Hello-World"
        (sample_net none (Json.obj [("name", Json.str "Python")])
          (Json.arr [])) =
      .ok (sample_out "No description" "Python" "None")
    ∧ strContains (sample_out "No description" "Python"
        ("v1.0" ++ " (" ++ "2024-01-01T00:00:00Z" ++ ")"))
        "Latest Release: v1.0 (2024-01-01T00:00:00Z)" = true
    ∧ strContains (sample_out "No description" "Python" "None")
        "Latest Release: None" = true :=
  ⟨rfl, rfl, by decide, by decide⟩

/-- Claim C7: a successful repository payload with a null `primaryLanguage`
renders the text `None` in the Primary Language field (here the explicit
string literal of the source's conditional, for any description value). -/
theorem C7_null_primary_language_renders_None (d : Json) :
    get_repository_info "octocat" "Hello-World"
        (sample_net (some d) Json.null (Json.arr [])) =
      .ok (sample_out (pyStr d) "None" "None")
    ∧ strContains (sample_out (pyStr Json.null) "None" "None")
        "Primary Language: None" = true :=
  ⟨rfl, by decide⟩

/-- Claim C8: both handlers are deterministic — two invocations with the same
arguments against an unchanged network outcome produce the same result (the
embedding is a pure function of its arguments and the network outcome; the
source holds no mutable state across calls). -/
theorem C8_handlers_deterministic (owner name username : String)
    (net1 net2 : NetOutcome) (h : net1 = net2) :
    get_repository_info owner name net1 = get_repository_info owner name net2
    ∧ get_user_info username net1 = get_user_info username net2 := by
  subst h
  exact ⟨rfl, rfl⟩

/-- Witness for C8 at a concrete invocation pair. -/
theorem C8_handlers_deterministic_witness :
    get_repository_info "octocat" "Hello-World" NetOutcome.timeout =
      get_repository_info "octocat" "Hello-World" NetOutcome.timeout
    ∧ get_user_info "octocat" NetOutcome.timeout =
      get_user_info "octocat" NetOutcome.timeout :=
  C8_handlers_deterministic "octocat" "Hello-World" "octocat"
    NetOutcome.timeout NetOutcome.timeout rfl

/-- Claim C9, counterexample: with `data.user` the falsy empty object, the
claim says `get_user_info` returns the not-found message; in fact the handler
raises `TypeError` at its three-argument request call and never reaches the
falsiness test. -/
theorem C9_user_handler_raises_before_falsiness_test :
    get_user_info "octocat"
        (.resp 200 (some (Json.obj [("data", Json.obj [("user", Json.obj [])])]))) =
      .error .typeError := rfl

/-- Claim C9, amended: the not-found branch tests Python falsiness, not null —
`get_repository_info` returns the not-found message for EVERY falsy
`data.repository` value (empty object included), and the same falsiness test
in the user formatting code (unreachable in the handler, see C1) likewise
returns the user not-found message. -/
theorem C9_falsy_entity_yields_not_found (owner name username : String)
    (v : Json) (h : v.truthy = false) :
    get_repository_info owner name
        (.resp 200 (some (.obj [("data", .obj [("repository", v)])]))) =
      .ok ("Repository " ++ owner ++ "/" ++ name ++ " not found.")
    ∧ format_user_response username
        (some (.obj [("data", .obj [("user", v)])])) =
      .ok ("User " ++ username ++ " not found.") := by
  cases v with
  | null => exact ⟨rfl, rfl⟩
  | bool b =>
    cases b with
    | false => exact ⟨rfl, rfl⟩
    | true => simp [Json.truthy] at h
  | num n =>
    simp [Json.truthy] at h
    subst h
    exact ⟨rfl, rfl⟩
  | str s =>
    simp [Json.truthy] at h
    subst h
    exact ⟨rfl, rfl⟩
  | arr xs =>
    simp [Json.truthy] at h
    subst h
    exact ⟨rfl, rfl⟩
  | obj kvs =>
    simp [Json.truthy] at h
    subst h
    exact ⟨rfl, rfl⟩

/-- Witness for C9 at the falsy empty object. -/
theorem C9_falsy_entity_yields_not_found_witness :
    get_repository_info "octocat" "Hello-World"
        (.resp 200 (some (.obj [("data", .obj [("repository", Json.obj [])])]))) =
      .ok ("Repository " ++ "octocat" ++ "/" ++ "Hello-World" ++ " not found.")
    ∧ format_user_response "octocat"
        (some (.obj [("data", .obj [("user", Json.obj [])])])) =
      .ok ("User " ++ "octocat" ++ " not found.") :=
  C9_falsy_entity_yields_not_found "octocat" "Hello-World" "octocat"
    (Json.obj []) rfl

/-- Claim C10: the successful-path rendering indexes nested fields with no
presence checks — a truthy repository object missing the `languages` key makes
`get_repository_info` raise `KeyError('languages')`, and a response whose
`data` is itself null makes it raise `TypeError` (subscripting None) — in
both cases an uncaught exception, not a returned string. -/
theorem C10_missing_nested_fields_raise :
    get_repository_info "octocat" "Hello-World"
        (.resp 200 (some (.obj [("data",
          .obj [("repository", .obj [("name", Json.str "x")])])]))) =
      .error (.keyError "languages")
    ∧ get_repository_info "octocat" "Hello-World"
        (.resp 200 (some (.obj [("data", Json.null)]))) =
      .error .typeError :=
  ⟨rfl, rfl⟩

end GithubRepoStats
